import Mathlib

/-!
Shallow embedding of the timed exam-taking flow of the OnlineExamPortal
front end.  The definitions below are translated from
`src/pages/ExamPanel.tsx` (answer store, countdown timer, submit handler,
submit-mutation success and error handlers, mount/restore effects) and
`src/lib/auth-context.tsx` (logout).  Browser `localStorage` is modelled as
an association list from string keys to structured values; since
`JSON.stringify` is injective on the serialised shapes used by the source,
storing the structured value itself is a faithful model of storing its
serialisation.  Machine integers of the source are small non-negative
counters and HTTP status codes, modelled as `Nat`.
-/

/-- Question type of a question (ExamPanel.tsx, `interface Question`, field
`type`: `'mcq' | 'subjective'`). -/
inductive QType
  | mcq
  | subjective
deriving Repr, DecidableEq

/-- One question of an exam paper (ExamPanel.tsx, `interface Question`).
The `_id` field is the backend identifier string. -/
structure Question where
  _id : String
  question : String
  options : List String
  marks : Nat
  qtype : QType
deriving Repr, DecidableEq

/-- One recorded answer (ExamPanel.tsx, `interface Answer`): the question
index, the selected option (or free text), and the question's `_id`. -/
structure Answer where
  questionIndex : Nat
  selectedOption : String
  question : String
deriving Repr, DecidableEq

/-- The exam paper as fetched from the backend (ExamPanel.tsx,
`interface ExamPaper`; the `subject` and `description` fields are not used
by the modelled operations and are omitted). -/
structure ExamPaper where
  _id : String
  title : String
  duration : Nat
  totalMarks : Nat
  questions : List Question
  isActive : Bool
  isCompleted : Bool
deriving Repr, DecidableEq

/-- A value held in the browser side-store.  The source stores JSON
serialisations of exactly these shapes (`JSON.stringify(answers)`,
`duration.toString()`, `startTime.toISOString()`); serialisation is
injective on them, so the structured value stands in for its string. -/
inductive StoreValue
  | natVal (n : Nat)
  | strVal (s : String)
  | answersVal (l : List Answer)
deriving Repr, DecidableEq

/-- The browser `localStorage`, as an association list (first binding of a
key wins on lookup; `setItem` removes any old binding). -/
abbrev Store := List (String × StoreValue)

/-- Model of `localStorage.getItem`. -/
def getItem (st : Store) (k : String) : Option StoreValue :=
  (st.find? (fun p => p.1 == k)).map (fun p => p.2)

/-- Model of `localStorage.setItem`: replaces any existing binding of `k`. -/
def setItem (st : Store) (k : String) (v : StoreValue) : Store :=
  st.filter (fun p => p.1 != k) ++ [(k, v)]

/-- Model of `localStorage.removeItem`. -/
def removeItem (st : Store) (k : String) : Store :=
  st.filter (fun p => p.1 != k)

/-- Model of JavaScript `String.prototype.startsWith`, used by `logout` in
auth-context.tsx to select the exam-related side-store keys. -/
def strStartsWith (s pre : String) : Bool :=
  pre.data.isPrefixOf s.data

/-- Side-store key `exam_${id}_answers` (ExamPanel.tsx). -/
def answersKey (id : String) : String := "exam_" ++ id ++ "_answers"

/-- Side-store key `exam_${id}_questionIndex` (ExamPanel.tsx). -/
def qIndexKey (id : String) : String := "exam_" ++ id ++ "_questionIndex"

/-- Side-store key `exam_${id}_timeLeft` (ExamPanel.tsx). -/
def timeLeftKey (id : String) : String := "exam_" ++ id ++ "_timeLeft"

/-- Side-store key `exam_${id}_startTime` (ExamPanel.tsx). -/
def startTimeKey (id : String) : String := "exam_" ++ id ++ "_startTime"

/-- ExamPanel.tsx `handleAnswerChange`, with the component state passed
explicitly: `answers.findIndex(a => a.questionIndex === currentQuestionIndex)`;
if found, the entry is overwritten in place, otherwise a new entry is
appended.  `qid` is `examPaper.questions[currentQuestionIndex]._id`. -/
def handleAnswerChange (answers : List Answer) (currentQuestionIndex : Nat)
    (qid : String) (answer : String) : List Answer :=
  match answers.findIdx? (fun a => a.questionIndex == currentQuestionIndex) with
  | some i => answers.set i ⟨currentQuestionIndex, answer, qid⟩
  | none => answers ++ [⟨currentQuestionIndex, answer, qid⟩]

/-- The read side of the answer store (ExamPanel.tsx render:
`answers.find(a => a.questionIndex === currentQuestionIndex)?.selectedOption || ''`). -/
def getAnswer (answers : List Answer) (i : Nat) : String :=
  match answers.find? (fun a => a.questionIndex == i) with
  | some a => a.selectedOption
  | none => ""

/-- A whole history of answer edits applied from the initial empty state;
`qids i` supplies `examPaper.questions[i]._id`. -/
def applyOps (qids : Nat → String) (ops : List (Nat × String)) : List Answer :=
  ops.foldl (fun acc op => handleAnswerChange acc op.1 (qids op.1) op.2) []

/-- Modelled from the spec: the value most recently set for index `i` by a
sequence of `setAnswer` operations, or the empty default if index `i` was
never set.  Used to compare the source's answer store against the
specification's description of it. -/
def mostRecentlySet (ops : List (Nat × String)) (i : Nat) : String :=
  match ops.reverse.find? (fun op => op.1 == i) with
  | some op => op.2
  | none => ""

/-- The question indices present in the answer list. -/
def answerIndices (answers : List Answer) : List Nat :=
  answers.map (fun a => a.questionIndex)

/-- ExamPanel.tsx save-to-localStorage effect: after every answer or
navigation change, serialises the full answer list and the current
question index to the side-store. -/
def saveExamState (st : Store) (id : String) (answers : List Answer)
    (currentQuestionIndex : Nat) : Store :=
  setItem (setItem st (answersKey id) (StoreValue.answersVal answers))
    (qIndexKey id) (StoreValue.natVal currentQuestionIndex)

/-- ExamPanel.tsx timer state: whether the `setInterval` handle is still
installed, and the current `timeLeft` counter in seconds. -/
structure TimerState where
  running : Bool
  timeLeft : Nat
deriving Repr, DecidableEq

/-- Timer start (ExamPanel.tsx timer useEffect):
`setTimeLeft(examPaper.duration * 60)` and install the interval. -/
def startTimer (durationMinutes : Nat) : TimerState :=
  { running := true, timeLeft := durationMinutes * 60 }

/-- One interval tick (ExamPanel.tsx `setInterval` callback): when
`prev <= 1` the interval is cleared, the expiry callback (`handleSubmit`)
is invoked — reported in the second component — and the counter becomes 0;
otherwise the counter is decremented by one.  A cleared timer does not
tick.  The callback receives no clock reading; the decrement uses only the
previous counter value. -/
def timerTick (s : TimerState) : TimerState × Bool :=
  if s.running then
    if s.timeLeft ≤ 1 then ({ running := false, timeLeft := 0 }, true)
    else ({ running := true, timeLeft := s.timeLeft - 1 }, false)
  else (s, false)

/-- Iterated interval ticks; the second component counts how many times the
expiry callback was invoked along the run. -/
def runTimer : TimerState → Nat → TimerState × Nat
  | s, 0 => (s, 0)
  | s, n + 1 =>
    let r := timerTick s
    let r2 := runTimer r.1 n
    (r2.1, (if r.2 then 1 else 0) + r2.2)

/-- Modelled from the spec: the deadline-based remaining time the
specification claims each tick recomputes — `(start + duration) − now`,
clamped at zero (`Nat` subtraction), all in seconds.  The source has no
such computation; this definition exists to compare the source's
`timerTick` against the specification's words. -/
def deadlineRemaining (startSec durationSec now : Nat) : Nat :=
  startSec + durationSec - now

/-- The ExamPanel component state relevant to submission, passed
explicitly: authenticated user present, fetched paper, the
`isSubmitting` flag, the answer list and the current question index. -/
structure ExamSession where
  hasUser : Bool
  paper : Option ExamPaper
  isSubmitting : Bool
  answers : List Answer
  currentQuestionIndex : Nat
deriving Repr, DecidableEq

/-- The body of the submission request (ExamPanel.tsx
`submitMutation.mutate({...})`): paper id, the answers projected to
`{questionIndex, selectedOption}`, the start and end timestamps, and the
`isSubmitted: true` flag. -/
structure SubmitPayload where
  examPaper : String
  answers : List (Nat × String)
  startTime : String
  endTime : String
  isSubmitted : Bool
deriving Repr, DecidableEq

/-- Externally visible actions of `handleSubmit`. -/
inductive SubmitEffect
  | navigateLogin
  | networkSubmit (payload : SubmitPayload)
deriving Repr, DecidableEq

/-- The payload built in `handleSubmit` before `submitMutation.mutate`. -/
def mkSubmitPayload (paper : ExamPaper) (answers : List Answer)
    (startTime endTime : String) : SubmitPayload :=
  { examPaper := paper._id
    answers := answers.map (fun a => (a.questionIndex, a.selectedOption))
    startTime := startTime
    endTime := endTime
    isSubmitted := true }

/-- ExamPanel.tsx `handleSubmit`, with the component state explicit.
Checks in source order: (1) `if (isSubmitting) return` — the in-flight
guard; (2) `if (!user || !examPaper)` redirect to login; (3) if
`answers.length < examPaper.questions.length`, ask `window.confirm`
(modelled by the `confirmResponse` argument) and return when declined;
(4) set `isSubmitting` and issue the network call. -/
def handleSubmit (st : ExamSession) (confirmResponse : Bool)
    (startTime endTime : String) : ExamSession × List SubmitEffect :=
  if st.isSubmitting then (st, [])
  else if st.hasUser = false then (st, [SubmitEffect.navigateLogin])
  else
    match st.paper with
    | none => (st, [SubmitEffect.navigateLogin])
    | some paper =>
      if st.answers.length < paper.questions.length ∧ confirmResponse = false
      then (st, [])
      else ({ st with isSubmitting := true },
        [SubmitEffect.networkSubmit (mkSubmitPayload paper st.answers startTime endTime)])

/-- Toast variant (`variant: 'default' | 'destructive'`). -/
inductive ToastVariant
  | variantDefault
  | destructive
deriving Repr, DecidableEq

/-- Externally visible actions of the submit-mutation error handler. -/
inductive ErrorEffect
  | navigateLogin (fromPath : String)
  | showToast (title : String) (variant : ToastVariant)
  | delayedNavigateDashboard (delayMs : Nat)
deriving Repr, DecidableEq

/-- ExamPanel.tsx `submitMutation.onError`: clears `isSubmitting` (first
component of the result), then branches on the response: 401 → navigate to
login preserving the return path; 400 with message
`'You have already submitted this exam'` → informational toast and a
2000 ms delayed redirect to the dashboard; anything else → destructive
error toast (and no navigation). -/
def submitOnError (examId : String) (status : Nat) (message : Option String) :
    Bool × List ErrorEffect :=
  (false,
    if status = 401 then
      [ErrorEffect.navigateLogin ("/exam-panel/" ++ examId)]
    else if status = 400 ∧ message = some "You have already submitted this exam" then
      [ErrorEffect.showToast "Already Submitted" ToastVariant.variantDefault,
        ErrorEffect.delayedNavigateDashboard 2000]
    else
      [ErrorEffect.showToast "Error" ToastVariant.destructive])

/-- ExamPanel.tsx `submitMutation.onSuccess`: removes the four side-store
keys of the attempt (then navigates to the dashboard, not modelled on the
store). -/
def submitOnSuccess (st : Store) (id : String) : Store :=
  removeItem (removeItem (removeItem (removeItem st
    (answersKey id)) (qIndexKey id)) (timeLeftKey id)) (startTimeKey id)

/-- auth-context.tsx `logout`, restricted to its side-store effect: removes
the `user` and `token` keys, then removes every key that starts with
`exam_`. -/
def logout (st : Store) : Store :=
  (removeItem (removeItem st "user") "token").filter
    (fun p => !(strStartsWith p.1 "exam_"))

/-- The observable result of mounting ExamPanel once the paper has loaded:
the started timer, the state restored by the restore-from-localStorage
useEffect (answers and question index only), the store after the timer
useEffect wrote `timeLeft` and `startTime`, and the `handleSubmit`
invocations made during mount.  `nowIso` is the mount timestamp;
`elapsedSec` is the wall-clock time since the persisted start of the
attempt — the source reads neither the persisted `timeLeft` nor the
persisted `startTime` on mount, so neither value influences the result,
and no mount path invokes `handleSubmit`. -/
structure MountResult where
  timer : TimerState
  answers : List Answer
  currentQuestionIndex : Nat
  store : Store
  submitCalls : List SubmitEffect
deriving Repr, DecidableEq

/-- ExamPanel.tsx mount behaviour: the timer useEffect starts the timer
from the full duration and persists `timeLeft` and `startTime`; the
restore useEffect reads only the saved answers and question index. -/
def mountSession (st : Store) (id : String) (paper : ExamPaper)
    (nowIso : String) (elapsedSec : Nat) : MountResult :=
  { timer := startTimer paper.duration
    answers :=
      match getItem st (answersKey id) with
      | some (StoreValue.answersVal l) => l
      | _ => []
    currentQuestionIndex :=
      match getItem st (qIndexKey id) with
      | some (StoreValue.natVal n) => n
      | _ => 0
    store := setItem (setItem st (timeLeftKey id)
        (StoreValue.natVal (paper.duration * 60)))
      (startTimeKey id) (StoreValue.strVal nowIso)
    submitCalls := [] }

/-- One second of the composed session (timer plus submit handler): the
interval tick runs; when it reports expiry it invokes `handleSubmit` on the
current session state. -/
def sessionTick (st : ExamSession) (ts : TimerState) (confirmResponse : Bool)
    (startTime endTime : String) :
    (ExamSession × TimerState) × List SubmitEffect :=
  let r := timerTick ts
  if r.2 then
    let s := handleSubmit st confirmResponse startTime endTime
    ((s.1, r.1), s.2)
  else ((st, r.1), [])

/-- Iterated composed session seconds, accumulating the emitted effects. -/
def runSession (st : ExamSession) (ts : TimerState) (n : Nat)
    (confirmResponse : Bool) (startTime endTime : String) :
    (ExamSession × TimerState) × List SubmitEffect :=
  match n with
  | 0 => ((st, ts), [])
  | m + 1 =>
    let r := sessionTick st ts confirmResponse startTime endTime
    let r2 := runSession r.1.1 r.1.2 m confirmResponse startTime endTime
    (r2.1, r.2 ++ r2.2)

/-- A one-question exam paper of duration 1 minute (the spec's scenario). -/
def onePaper : ExamPaper :=
  { _id := "paper1"
    title := "Sample"
    duration := 1
    totalMarks := 1
    questions := [⟨"q1", "Q1", ["A", "B"], 1, QType.mcq⟩]
    isActive := true
    isCompleted := false }

/-- The session state for the spec's scenario: authenticated, paper loaded,
nothing answered, nothing in flight. -/
def oneQSession : ExamSession :=
  { hasUser := true
    paper := some onePaper
    isSubmitting := false
    answers := []
    currentQuestionIndex := 0 }

/-- The scenario session with a submission already in flight. -/
def inFlightSession : ExamSession :=
  { oneQSession with isSubmitting := true }

/-- A side-store as left behind by an interrupted attempt on `onePaper`
(attempt id `e1`): the persisted start timestamp says the attempt began at
midnight, and 120 s — twice the 60 s duration — have elapsed since. -/
def resumeStore : Store :=
  [(timeLeftKey "e1", StoreValue.natVal 60),
   (startTimeKey "e1", StoreValue.strVal "2026-01-01T00:00:00.000Z")]

section StoreLemmas

lemma find?_filter_ne (st : Store) (k k' : String) (h : k' ≠ k) :
    List.find? (fun p => p.1 == k') (st.filter (fun p => p.1 != k))
      = List.find? (fun p => p.1 == k') st := by
  induction st with
  | nil => rfl
  | cons p st ih =>
    by_cases hp : p.1 = k
    · have hq : (p.1 == k') = false := by simp [hp, Ne.symm h]
      rw [List.filter_cons, if_neg (by simp [hp]), List.find?_cons, hq]
      exact ih
    · rw [List.filter_cons, if_pos (by simp [hp]), List.find?_cons, List.find?_cons]
      by_cases hq : p.1 = k'
      · rw [show (p.1 == k') = true by simp [hq]]
      · rw [show (p.1 == k') = false by simp [hq]]
        exact ih

lemma find?_filter_self (st : Store) (k : String) :
    List.find? (fun p => p.1 == k) (st.filter (fun p => p.1 != k)) = none := by
  induction st with
  | nil => rfl
  | cons p st ih =>
    by_cases hp : p.1 = k
    · rw [List.filter_cons, if_neg (by simp [hp])]
      exact ih
    · rw [List.filter_cons, if_pos (by simp [hp]), List.find?_cons,
        show (p.1 == k) = false by simp [hp]]
      exact ih

lemma getItem_setItem_self (st : Store) (k : String) (v : StoreValue) :
    getItem (setItem st k v) k = some v := by
  unfold getItem setItem
  rw [List.find?_append, find?_filter_self]
  simp [List.find?]

lemma getItem_setItem_ne (st : Store) (k k' : String) (v : StoreValue)
    (h : k' ≠ k) : getItem (setItem st k v) k' = getItem st k' := by
  unfold getItem setItem
  rw [List.find?_append, find?_filter_ne st k k' h]
  have h1 : List.find? (fun p => p.1 == k') [(k, v)] = none := by
    rw [List.find?_cons, show (((k, v) : String × StoreValue).1 == k') = false by
      simp [Ne.symm h]]
    rfl
  rw [h1]
  cases List.find? (fun p => p.1 == k') st <;> rfl

lemma getItem_removeItem_self (st : Store) (k : String) :
    getItem (removeItem st k) k = none := by
  unfold getItem removeItem
  rw [find?_filter_self]
  rfl

lemma getItem_removeItem_ne (st : Store) (k k' : String) (h : k' ≠ k) :
    getItem (removeItem st k) k' = getItem st k' := by
  unfold getItem removeItem
  rw [find?_filter_ne st k k' h]

end StoreLemmas

section AnswerStoreLemmas

lemma handleAnswerChange_cons (a : Answer) (l : List Answer) (k : Nat) (qid v : String) :
    handleAnswerChange (a :: l) k qid v =
      if a.questionIndex = k
      then { questionIndex := k, selectedOption := v, question := qid } :: l
      else a :: handleAnswerChange l k qid v := by
  unfold handleAnswerChange
  by_cases h : a.questionIndex = k
  · simp [List.findIdx?_cons, h]
  · rw [if_neg h, List.findIdx?_cons,
      if_neg (by simp [h]), List.findIdx?_succ]
    cases hf : l.findIdx? (fun x => x.questionIndex == k) with
    | none => simp
    | some j => simp

lemma getAnswer_cons (a : Answer) (l : List Answer) (i : Nat) :
    getAnswer (a :: l) i
      = if a.questionIndex = i then a.selectedOption else getAnswer l i := by
  unfold getAnswer
  by_cases h : a.questionIndex = i
  · simp [List.find?_cons, h]
  · simp [List.find?_cons, h]

lemma getAnswer_handleAnswerChange (l : List Answer) (k i : Nat) (qid v : String) :
    getAnswer (handleAnswerChange l k qid v) i
      = if k = i then v else getAnswer l i := by
  induction l with
  | nil =>
    show getAnswer [⟨k, v, qid⟩] i = _
    rw [getAnswer_cons]
  | cons a l ih =>
    rw [handleAnswerChange_cons]
    by_cases h : a.questionIndex = k
    · by_cases hk : k = i
      · simp [h, hk, getAnswer_cons]
      · have hai : ¬ a.questionIndex = i := by rw [h]; exact hk
        simp [getAnswer_cons, h, hk, hai]
    · by_cases hk : k = i
      · subst hk
        simp [getAnswer_cons, h, ih]
      · simp [getAnswer_cons, ih, hk, h]

lemma getAnswer_foldl (ops : List (Nat × String)) (qids : Nat → String)
    (l : List Answer) (i : Nat) :
    getAnswer (ops.foldl
        (fun acc op => handleAnswerChange acc op.1 (qids op.1) op.2) l) i
      = match ops.reverse.find? (fun op => op.1 == i) with
        | some op => op.2
        | none => getAnswer l i := by
  induction ops generalizing l with
  | nil => rfl
  | cons op ops ih =>
    rw [List.foldl_cons, ih, List.reverse_cons, List.find?_append]
    cases hf : ops.reverse.find? (fun o => o.1 == i) with
    | some o => simp
    | none =>
      by_cases h : op.1 = i
      · simp [getAnswer_handleAnswerChange, List.find?_cons, h]
      · simp [getAnswer_handleAnswerChange, List.find?_cons, h]

lemma mem_answerIndices_handleAnswerChange (l : List Answer) (k x : Nat)
    (qid v : String) :
    x ∈ answerIndices (handleAnswerChange l k qid v)
      → x = k ∨ x ∈ answerIndices l := by
  induction l with
  | nil =>
    show x ∈ answerIndices [⟨k, v, qid⟩] → _
    simp [answerIndices]
  | cons a l ih =>
    rw [handleAnswerChange_cons]
    by_cases h : a.questionIndex = k
    · rw [if_pos h]
      simp only [answerIndices, List.map_cons, List.mem_cons]
      rintro (rfl | hx)
      · exact Or.inl rfl
      · exact Or.inr (Or.inr hx)
    · rw [if_neg h]
      simp only [answerIndices, List.map_cons, List.mem_cons]
      rintro (rfl | hx)
      · exact Or.inr (Or.inl rfl)
      · rcases ih hx with hk | hm
        · exact Or.inl hk
        · exact Or.inr (Or.inr hm)

lemma nodup_handleAnswerChange (l : List Answer) (k : Nat) (qid v : String)
    (h : (answerIndices l).Nodup) :
    (answerIndices (handleAnswerChange l k qid v)).Nodup := by
  induction l with
  | nil =>
    show (answerIndices [⟨k, v, qid⟩]).Nodup
    simp [answerIndices]
  | cons a l ih =>
    rw [handleAnswerChange_cons]
    simp only [answerIndices, List.map_cons, List.nodup_cons] at h
    by_cases hk : a.questionIndex = k
    · rw [if_pos hk]
      simp only [answerIndices, List.map_cons, List.nodup_cons]
      exact ⟨hk ▸ h.1, h.2⟩
    · rw [if_neg hk]
      simp only [answerIndices, List.map_cons, List.nodup_cons]
      refine ⟨fun hm => ?_, ih h.2⟩
      rcases mem_answerIndices_handleAnswerChange l k a.questionIndex qid v hm with
        heq | hmem
      · exact hk heq
      · exact h.1 hmem

lemma nodup_foldl_answers (ops : List (Nat × String)) (qids : Nat → String)
    (l : List Answer) (h : (answerIndices l).Nodup) :
    (answerIndices (ops.foldl
      (fun acc op => handleAnswerChange acc op.1 (qids op.1) op.2) l)).Nodup := by
  induction ops generalizing l with
  | nil => exact h
  | cons op ops ih =>
    rw [List.foldl_cons]
    exact ih _ (nodup_handleAnswerChange l op.1 (qids op.1) op.2 h)

end AnswerStoreLemmas

section TimerLemmas

lemma runTimer_stopped (t n : Nat) :
    runTimer { running := false, timeLeft := t } n
      = ({ running := false, timeLeft := t }, 0) := by
  induction n with
  | zero => rfl
  | succ m ih => simp [runTimer, timerTick, ih]

lemma timerTick_running (t : Nat) (h : 2 ≤ t) :
    timerTick { running := true, timeLeft := t }
      = ({ running := true, timeLeft := t - 1 }, false) := by
  unfold timerTick
  rw [if_pos rfl, if_neg (show ¬ ({ running := true, timeLeft := t } :
    TimerState).timeLeft ≤ 1 by change ¬ t ≤ 1; omega)]

lemma runTimer_running_count (t n : Nat) (ht : 1 ≤ t) :
    (runTimer { running := true, timeLeft := t } n).2 = if t ≤ n then 1 else 0 := by
  induction n generalizing t with
  | zero =>
    rw [if_neg (by omega)]
    rfl
  | succ m ih =>
    by_cases h1 : t ≤ 1
    · have ht1 : t = 1 := by omega
      subst ht1
      simp [runTimer, timerTick, runTimer_stopped]
    · rw [show runTimer { running := true, timeLeft := t } (m + 1)
          = (let r := timerTick { running := true, timeLeft := t }
             let r2 := runTimer r.1 m
             (r2.1, (if r.2 then 1 else 0) + r2.2)) from rfl]
      rw [timerTick_running t (by omega)]
      simp only [if_false, Bool.false_eq_true, Nat.zero_add]
      rw [ih (t - 1) (by omega)]
      by_cases h2 : t ≤ m + 1
      · rw [if_pos (by omega), if_pos h2]
      · rw [if_neg (by omega), if_neg h2]

lemma timerTick_timeLeft_le (s : TimerState) :
    (timerTick s).1.timeLeft ≤ s.timeLeft := by
  unfold timerTick
  split_ifs <;> simp

lemma runTimer_timeLeft_le (s : TimerState) (n : Nat) :
    (runTimer s n).1.timeLeft ≤ s.timeLeft := by
  induction n generalizing s with
  | zero => exact le_refl _
  | succ m ih =>
    calc (runTimer s (m + 1)).1.timeLeft
        = (runTimer (timerTick s).1 m).1.timeLeft := rfl
      _ ≤ (timerTick s).1.timeLeft := ih _
      _ ≤ s.timeLeft := timerTick_timeLeft_le s

lemma runTimer_add_fst (s : TimerState) (n k : Nat) :
    (runTimer s (n + k)).1 = (runTimer (runTimer s n).1 k).1 := by
  induction n generalizing s with
  | zero =>
    rw [Nat.zero_add]
    rfl
  | succ m ih =>
    have h : m + 1 + k = (m + k) + 1 := by omega
    rw [h]
    calc (runTimer s ((m + k) + 1)).1
        = (runTimer (timerTick s).1 (m + k)).1 := rfl
      _ = (runTimer (runTimer (timerTick s).1 m).1 k).1 := ih _
      _ = (runTimer (runTimer s (m + 1)).1 k).1 := rfl

lemma runTimer_count_le_one (t n : Nat) (ht : 1 ≤ t) :
    (runTimer { running := true, timeLeft := t } n).2 ≤ 1 := by
  rw [runTimer_running_count t n ht]
  split_ifs <;> omega

end TimerLemmas

section KeyLemmas

lemma string_append_inj (p x y s : String)
    (h : p ++ x ++ s = p ++ y ++ s) : x = y := by
  have hd : (p ++ x ++ s).data = (p ++ y ++ s).data := by rw [h]
  rw [String.data_append, String.data_append,
    String.data_append, String.data_append] at hd
  exact String.ext (List.append_cancel_left (List.append_cancel_right hd))

lemma string_append_ne_of_last (p x y s t : String) (c d : Char)
    (hs : s.data.getLast? = some c) (ht : t.data.getLast? = some d)
    (hcd : c ≠ d) : p ++ x ++ s ≠ p ++ y ++ t := by
  intro h
  have hd : (p ++ x ++ s).data = (p ++ y ++ t).data := by rw [h]
  rw [String.data_append, String.data_append,
    String.data_append, String.data_append] at hd
  have h1 : ((p.data ++ x.data) ++ s.data).getLast?
      = ((p.data ++ y.data) ++ t.data).getLast? := by rw [hd]
  rw [List.getLast?_append_of_ne_nil _
        (fun hnil => by rw [hnil] at hs; exact Option.noConfusion hs),
      List.getLast?_append_of_ne_nil _
        (fun hnil => by rw [hnil] at ht; exact Option.noConfusion ht),
      hs, ht] at h1
  exact hcd (Option.some.inj h1)

lemma answersKey_inj (a b : String) (h : a ≠ b) : answersKey a ≠ answersKey b :=
  fun he => h (string_append_inj "exam_" a b "_answers" he)

lemma qIndexKey_inj (a b : String) (h : a ≠ b) : qIndexKey a ≠ qIndexKey b :=
  fun he => h (string_append_inj "exam_" a b "_questionIndex" he)

lemma timeLeftKey_inj (a b : String) (h : a ≠ b) : timeLeftKey a ≠ timeLeftKey b :=
  fun he => h (string_append_inj "exam_" a b "_timeLeft" he)

lemma startTimeKey_inj (a b : String) (h : a ≠ b) :
    startTimeKey a ≠ startTimeKey b :=
  fun he => h (string_append_inj "exam_" a b "_startTime" he)

lemma key_ne_aq (a b : String) : answersKey a ≠ qIndexKey b :=
  string_append_ne_of_last "exam_" a b "_answers" "_questionIndex" 's' 'x'
    (by decide) (by decide) (by decide)

lemma key_ne_at (a b : String) : answersKey a ≠ timeLeftKey b :=
  string_append_ne_of_last "exam_" a b "_answers" "_timeLeft" 's' 't'
    (by decide) (by decide) (by decide)

lemma key_ne_as (a b : String) : answersKey a ≠ startTimeKey b :=
  string_append_ne_of_last "exam_" a b "_answers" "_startTime" 's' 'e'
    (by decide) (by decide) (by decide)

lemma key_ne_qt (a b : String) : qIndexKey a ≠ timeLeftKey b :=
  string_append_ne_of_last "exam_" a b "_questionIndex" "_timeLeft" 'x' 't'
    (by decide) (by decide) (by decide)

lemma key_ne_qs (a b : String) : qIndexKey a ≠ startTimeKey b :=
  string_append_ne_of_last "exam_" a b "_questionIndex" "_startTime" 'x' 'e'
    (by decide) (by decide) (by decide)

lemma key_ne_ts (a b : String) : timeLeftKey a ≠ startTimeKey b :=
  string_append_ne_of_last "exam_" a b "_timeLeft" "_startTime" 't' 'e'
    (by decide) (by decide) (by decide)

end KeyLemmas

section SubmitLemmas

lemma handleSubmit_inflight (st : ExamSession) (c : Bool) (t1 t2 : String)
    (h : st.isSubmitting = true) : handleSubmit st c t1 t2 = (st, []) := by
  unfold handleSubmit
  rw [if_pos h]

lemma handleSubmit_sets_flag (st : ExamSession) (c : Bool) (t1 t2 : String)
    (p : SubmitPayload)
    (hm : SubmitEffect.networkSubmit p ∈ (handleSubmit st c t1 t2).2) :
    (handleSubmit st c t1 t2).1.isSubmitting = true := by
  obtain ⟨hu, pap, isub, ans, qi⟩ := st
  cases pap with
  | none =>
    unfold handleSubmit at hm
    by_cases h1 : isub = true <;> by_cases h2 : hu = false <;>
      simp [h1, h2] at hm
  | some paper =>
    unfold handleSubmit at hm ⊢
    by_cases h1 : isub = true
    · simp [h1] at hm
    · by_cases h2 : hu = false
      · simp [h1, h2] at hm
      · by_cases h3 : ans.length < paper.questions.length ∧ c = false
        · simp [h1, h2, h3] at hm
        · simp [h1, h2, h3]

lemma handleSubmit_declined (st : ExamSession) (paper : ExamPaper)
    (t1 t2 : String) (hp : st.paper = some paper) (hu : st.hasUser = true)
    (hs : st.isSubmitting = false)
    (hun : st.answers.length < paper.questions.length) :
    handleSubmit st false t1 t2 = (st, []) := by
  unfold handleSubmit
  rw [hp]
  simp [hs, hu, hun]

lemma handleSubmit_confirmed (st : ExamSession) (paper : ExamPaper)
    (t1 t2 : String) (hp : st.paper = some paper) (hu : st.hasUser = true)
    (hs : st.isSubmitting = false) :
    handleSubmit st true t1 t2
      = ({ st with isSubmitting := true },
         [SubmitEffect.networkSubmit (mkSubmitPayload paper st.answers t1 t2)]) := by
  unfold handleSubmit
  rw [hp]
  simp [hs, hu]

lemma getItem_filter_not_exam (st : Store) (k : String)
    (hk : strStartsWith k "exam_" = true) :
    getItem (st.filter (fun p => !(strStartsWith p.1 "exam_"))) k = none := by
  induction st with
  | nil => rfl
  | cons p st ih =>
    by_cases hp : strStartsWith p.1 "exam_" = true
    · rw [List.filter_cons, if_neg (by simp [hp])]
      exact ih
    · have hne : (p.1 == k) = false := by
        refine beq_eq_false_iff_ne.mpr ?_
        intro he
        exact hp (he ▸ hk)
      rw [List.filter_cons, if_pos (by simp [hp])]
      unfold getItem at ih ⊢
      rw [List.find?_cons, hne]
      exact ih

end SubmitLemmas

/-- C5: while the session is active the remaining-seconds counter is
non-increasing under timer ticks and is clamped to zero at expiry; the
expiry callback is invoked exactly once (at most once over any run, and
exactly once as soon as the full duration of ticks has elapsed), after
which the timer stops ticking. -/
theorem timer_monotone_expiry_once (s : TimerState) (d n m : Nat)
    (hd : 1 ≤ d) (hnm : n ≤ m) :
    (timerTick s).1.timeLeft ≤ s.timeLeft
    ∧ ((timerTick s).2 = true
        → (timerTick s).1 = { running := false, timeLeft := 0 })
    ∧ (s.running = false → timerTick s = (s, false))
    ∧ (runTimer (startTimer d) m).1.timeLeft
        ≤ (runTimer (startTimer d) n).1.timeLeft
    ∧ (runTimer (startTimer d) n).2 ≤ 1
    ∧ (d * 60 ≤ n → (runTimer (startTimer d) n).2 = 1) := by
  refine ⟨timerTick_timeLeft_le s, fun hf => ?_, fun hr => ?_, ?_, ?_, fun hn => ?_⟩
  · unfold timerTick at hf ⊢
    split_ifs at hf ⊢ <;> simp_all
  · unfold timerTick
    rw [if_neg (by simp [hr])]
  · rw [show m = n + (m - n) by omega, runTimer_add_fst]
    exact runTimer_timeLeft_le _ _
  · exact runTimer_count_le_one (d * 60) n (by omega)
  · exact (runTimer_running_count (d * 60) n (by omega)).trans (if_pos hn)

/-- C5 witness: the general timer theorem applied to a concrete timer state
and a 1-minute exam observed for 60 and 61 ticks. -/
theorem timer_monotone_expiry_once_witness :
    (runTimer (startTimer 1) 60).2 = 1 :=
  (timer_monotone_expiry_once { running := true, timeLeft := 5 } 1 60 61
    (by decide) (by decide)).2.2.2.2.2 (by decide)

/-- C2 counterexample: the source's tick is a naive decrement that ignores
the wall clock.  Start a 1-minute timer at wall-clock second 0; suppose the
tab is suspended and only one tick is delivered by second 31.  The code
then shows 59 s remaining, while the deadline-based recomputation the claim
describes yields 29 s — the missed ticks inflate the remaining time. -/
theorem tick_ignores_deadline_counterexample :
    (timerTick (startTimer 1)).1.timeLeft = 59
    ∧ deadlineRemaining 0 60 31 = 29
    ∧ (timerTick (startTimer 1)).1.timeLeft ≠ deadlineRemaining 0 60 31
    ∧ deadlineRemaining 0 60 31 < (timerTick (startTimer 1)).1.timeLeft := by
  decide

/-- C2 amended: on start the timer sets the counter to `duration * 60` and
persists the start timestamp to the side-store, but each tick decrements
the previous counter value by one (clamping to zero and stopping at
expiry); remaining time is never recomputed from a deadline, so missed
ticks inflate the displayed remaining time. -/
theorem tick_decrements_by_one (s : TimerState) (st : Store)
    (id nowIso : String) (paper : ExamPaper) (elapsedSec : Nat)
    (h : s.running = true) :
    (2 ≤ s.timeLeft → timerTick s
        = ({ running := true, timeLeft := s.timeLeft - 1 }, false))
    ∧ (s.timeLeft ≤ 1 → timerTick s = ({ running := false, timeLeft := 0 }, true))
    ∧ (mountSession st id paper nowIso elapsedSec).timer = startTimer paper.duration
    ∧ getItem (mountSession st id paper nowIso elapsedSec).store (startTimeKey id)
        = some (StoreValue.strVal nowIso) := by
  refine ⟨fun h2 => ?_, fun h1 => ?_, rfl, ?_⟩
  · unfold timerTick
    rw [if_pos h, if_neg (by omega)]
  · unfold timerTick
    rw [if_pos h, if_pos h1]
  · exact getItem_setItem_self _ _ _

/-- C2 amended witness: one tick of a running 5-second timer decrements it
to 4 without firing. -/
theorem tick_decrements_by_one_witness :
    timerTick { running := true, timeLeft := 5 }
      = ({ running := true, timeLeft := 4 }, false) :=
  (tick_decrements_by_one { running := true, timeLeft := 5 } [] "e1" "t0"
    onePaper 0 rfl).1 (by decide)

/-- C1 counterexample: duration 1 minute, 1 question, no answer given.
After 60 simulated seconds the expiry callback runs `handleSubmit`, which
— because a question is unanswered — asks for confirmation: if the
confirmation is declined the session stays unchanged (still active) and no
network call is issued, and even when it is granted the submitted answer
list is empty — it does not carry a `selectedOption` of `""` for
`questionIndex` 0.  Both refute the claim that expiry forces submission
with no confirmation and a padded answer entry. -/
theorem forced_submission_counterexample :
    (runSession oneQSession (startTimer 1) 60 false "s" "e").1.1 = oneQSession
    ∧ (runSession oneQSession (startTimer 1) 60 false "s" "e").2 = []
    ∧ (runSession oneQSession (startTimer 1) 60 true "s" "e").2
        = [SubmitEffect.networkSubmit (mkSubmitPayload onePaper [] "s" "e")]
    ∧ (mkSubmitPayload onePaper [] "s" "e").answers = []
    ∧ ((0, "") ∉ (mkSubmitPayload onePaper [] "s" "e").answers) := by
  set_option maxRecDepth 4000 in decide

/-- C1 amended: when the countdown reaches zero the expiry callback invokes
the submit handler, but the handler still requires `window.confirm`
confirmation whenever questions are unanswered: declined confirmation
leaves the session active with no network call; granted confirmation
transitions to submitting and the payload carries only the actually
answered questions — in the 1-question, no-answer scenario an empty list
with no entry for question index 0. -/
theorem expiry_submission_requires_confirmation (st : ExamSession)
    (paper : ExamPaper) (t1 t2 : String) (hp : st.paper = some paper)
    (hu : st.hasUser = true) (hs : st.isSubmitting = false)
    (hun : st.answers.length < paper.questions.length) :
    (runTimer (startTimer 1) 60).2 = 1
    ∧ handleSubmit st false t1 t2 = (st, [])
    ∧ handleSubmit st true t1 t2
        = ({ st with isSubmitting := true },
           [SubmitEffect.networkSubmit (mkSubmitPayload paper st.answers t1 t2)])
    ∧ (runSession oneQSession (startTimer 1) 60 true "s" "e").1.1.isSubmitting = true
    ∧ (runSession oneQSession (startTimer 1) 60 true "s" "e").2
        = [SubmitEffect.networkSubmit (mkSubmitPayload onePaper [] "s" "e")]
    ∧ (mkSubmitPayload onePaper [] "s" "e").answers = [] :=
  ⟨by decide, handleSubmit_declined st paper t1 t2 hp hu hs hun,
    handleSubmit_confirmed st paper t1 t2 hp hu hs,
    by set_option maxRecDepth 4000 in decide,
    by set_option maxRecDepth 4000 in decide, rfl⟩

/-- C1 amended witness: the confirmed-submission branch evaluated on the
1-question scenario state. -/
theorem expiry_submission_requires_confirmation_witness :
    handleSubmit oneQSession true "s" "e"
      = ({ oneQSession with isSubmitting := true },
         [SubmitEffect.networkSubmit (mkSubmitPayload onePaper [] "s" "e")]) :=
  (expiry_submission_requires_confirmation oneQSession onePaper "s" "e" rfl rfl rfl
    (by decide)).2.2.1

/-- C6 counterexample: resuming attempt `e1` on `onePaper` 120 s after its
persisted start — twice the 60 s duration — does not fire expiry on mount:
the timer restarts running at the full 60 s and no submit call is made. -/
theorem mount_past_deadline_counterexample :
    onePaper.duration * 60 ≤ 120
    ∧ (mountSession resumeStore "e1" onePaper "2026-01-01T00:02:00.000Z" 120).timer
        = { running := true, timeLeft := 60 }
    ∧ (mountSession resumeStore "e1" onePaper "2026-01-01T00:02:00.000Z" 120).submitCalls
        = [] := by
  decide

/-- C6 amended: on remount the timer always restarts from the full
duration and overwrites the persisted remaining time; the persisted start
timestamp is never read, so expiry never fires immediately, however much
wall-clock time has elapsed since the persisted start. -/
theorem mount_restarts_timer (st : Store) (id nowIso : String)
    (paper : ExamPaper) (elapsedSec : Nat) :
    (mountSession st id paper nowIso elapsedSec).timer = startTimer paper.duration
    ∧ (mountSession st id paper nowIso elapsedSec).submitCalls = []
    ∧ getItem (mountSession st id paper nowIso elapsedSec).store (timeLeftKey id)
        = some (StoreValue.natVal (paper.duration * 60)) := by
  refine ⟨rfl, rfl, ?_⟩
  rw [show (mountSession st id paper nowIso elapsedSec).store
      = setItem (setItem st (timeLeftKey id)
          (StoreValue.natVal (paper.duration * 60)))
        (startTimeKey id) (StoreValue.strVal nowIso) from rfl,
    getItem_setItem_ne _ _ _ _ (key_ne_ts id id), getItem_setItem_self]

/-- C4: at most one submission call is outstanding — a submit request
issued while `isSubmitting` is already set is a complete no-op, and any
call that did issue a network request leaves the flag set, so an
immediately following submit request issues nothing. -/
theorem single_submission_in_flight (st st2 : ExamSession) (c c2 : Bool)
    (t1 t2 t3 t4 : String) (h : st.isSubmitting = true) :
    handleSubmit st c t1 t2 = (st, [])
    ∧ ∀ p, SubmitEffect.networkSubmit p ∈ (handleSubmit st2 c t1 t2).2 →
        handleSubmit (handleSubmit st2 c t1 t2).1 c2 t3 t4
          = ((handleSubmit st2 c t1 t2).1, []) :=
  ⟨handleSubmit_inflight st c t1 t2 h,
    fun p hp => handleSubmit_inflight _ c2 t3 t4
      (handleSubmit_sets_flag st2 c t1 t2 p hp)⟩

/-- C4 witness: a second submit on a state already marked in-flight is a
no-op. -/
theorem single_submission_in_flight_witness :
    handleSubmit inFlightSession true "s" "e" = (inFlightSession, []) :=
  (single_submission_in_flight inFlightSession oneQSession true true
    "s" "e" "s" "e" rfl).1

/-- C7: a manual submit with at least one unanswered question proceeds only
after explicit confirmation — a declined confirmation leaves the session
state unchanged (still active) with no network call, and any network call
emitted from such a state implies the confirmation was granted. -/
theorem manual_submit_needs_confirmation (st : ExamSession) (paper : ExamPaper)
    (t1 t2 : String) (hp : st.paper = some paper) (hu : st.hasUser = true)
    (hs : st.isSubmitting = false)
    (hun : st.answers.length < paper.questions.length) :
    handleSubmit st false t1 t2 = (st, [])
    ∧ ∀ c p, SubmitEffect.networkSubmit p ∈ (handleSubmit st c t1 t2).2
        → c = true := by
  refine ⟨handleSubmit_declined st paper t1 t2 hp hu hs hun, fun c p hm => ?_⟩
  cases c with
  | true => rfl
  | false =>
    rw [handleSubmit_declined st paper t1 t2 hp hu hs hun] at hm
    simp at hm

/-- C7 witness: declining confirmation on the unanswered 1-question
scenario issues nothing and keeps the state. -/
theorem manual_submit_needs_confirmation_witness :
    handleSubmit oneQSession false "s" "e" = (oneQSession, []) :=
  (manual_submit_needs_confirmation oneQSession onePaper "s" "e" rfl rfl rfl
    (by decide)).1

/-- C8 counterexample: a 401 submission failure is not a
duplicate-submission, yet it does not leave the user on the page with a
retryable error notice — it redirects to the login page.  This refutes the
claim that every non-duplicate submission failure keeps the user on the
page. -/
theorem submit_error_401_counterexample :
    ¬ ((401 : Nat) = 400
        ∧ (none : Option String) = some "You have already submitted this exam")
    ∧ (submitOnError "e1" 401 none).2 = [ErrorEffect.navigateLogin "/exam-panel/e1"]
    ∧ (submitOnError "e1" 401 none).2
        ≠ [ErrorEffect.showToast "Error" ToastVariant.destructive] := by
  decide

/-- C8 amended: a duplicate-submission failure (status 400 with the
already-submitted message) produces an informational toast and a 2000 ms
delayed redirect to the dashboard; every other submission failure except
unauthorized (401, which redirects to the login page preserving the return
path) leaves the user on the page with a retryable destructive error
notice; every error path clears the in-flight flag. -/
theorem submit_error_taxonomy (examId : String) (status : Nat)
    (message : Option String) (h401 : status ≠ 401) :
    ((status = 400 ∧ message = some "You have already submitted this exam") →
      (submitOnError examId status message).2
        = [ErrorEffect.showToast "Already Submitted" ToastVariant.variantDefault,
           ErrorEffect.delayedNavigateDashboard 2000])
    ∧ (¬ (status = 400 ∧ message = some "You have already submitted this exam") →
      (submitOnError examId status message).2
        = [ErrorEffect.showToast "Error" ToastVariant.destructive])
    ∧ (submitOnError examId 401 message).2
        = [ErrorEffect.navigateLogin ("/exam-panel/" ++ examId)]
    ∧ (submitOnError examId status message).1 = false := by
  refine ⟨fun hdup => ?_, fun hnd => ?_, ?_, rfl⟩
  · unfold submitOnError
    rw [if_neg h401, if_pos hdup]
  · unfold submitOnError
    rw [if_neg h401, if_neg hnd]
  · unfold submitOnError
    rw [if_pos rfl]

/-- C8 amended witness: the duplicate-submission branch evaluated at
status 400 with the already-submitted message. -/
theorem submit_error_taxonomy_witness :
    (submitOnError "e1" 400 (some "You have already submitted this exam")).2
      = [ErrorEffect.showToast "Already Submitted" ToastVariant.variantDefault,
         ErrorEffect.delayedNavigateDashboard 2000] :=
  (submit_error_taxonomy "e1" 400 (some "You have already submitted this exam")
    (by decide)).1 ⟨rfl, rfl⟩

/-- C3: for every sequence of answer edits from the empty state,
`getAnswer i` returns the most recently set value for index `i` (empty
default when never set); an edit to an index `j ≠ i` leaves `getAnswer i`
unchanged; and the save effect serialises the full answer set (and the
question index) to the side-store. -/
theorem answer_store_correct (qids : Nat → String) (ops : List (Nat × String))
    (l : List Answer) (i j : Nat) (qid v : String) (st : Store) (id : String)
    (a : List Answer) (q : Nat) (hij : j ≠ i) :
    getAnswer (applyOps qids ops) i = mostRecentlySet ops i
    ∧ getAnswer (handleAnswerChange l j qid v) i = getAnswer l i
    ∧ getItem (saveExamState st id a q) (answersKey id)
        = some (StoreValue.answersVal a)
    ∧ getItem (saveExamState st id a q) (qIndexKey id)
        = some (StoreValue.natVal q) := by
  refine ⟨?_, ?_, ?_, ?_⟩
  · unfold applyOps mostRecentlySet
    rw [getAnswer_foldl]
    cases ops.reverse.find? (fun op => op.1 == i) <;> rfl
  · rw [getAnswer_handleAnswerChange, if_neg hij]
  · unfold saveExamState
    rw [getItem_setItem_ne _ _ _ _ (key_ne_aq id id), getItem_setItem_self]
  · unfold saveExamState
    rw [getItem_setItem_self]

/-- C3 witness: overwriting index 0 twice yields the last value; an edit to
index 1 leaves index 0 alone; the save effect stores the serialised set. -/
theorem answer_store_correct_witness :
    getAnswer (applyOps (fun _ => "q1") [(0, "B"), (0, "C")]) 0
      = mostRecentlySet [(0, "B"), (0, "C")] 0
    ∧ getAnswer (handleAnswerChange [] 1 "q2" "X") 0 = getAnswer [] 0
    ∧ getItem (saveExamState [] "e1" [] 0) (answersKey "e1")
        = some (StoreValue.answersVal [])
    ∧ getItem (saveExamState [] "e1" [] 0) (qIndexKey "e1")
        = some (StoreValue.natVal 0) :=
  answer_store_correct (fun _ => "q1") [(0, "B"), (0, "C")] [] 0 1 "q2" "X"
    [] "e1" [] 0 (by decide)

/-- C10: every answer list reachable by answer edits from the empty state
has at most one entry per question index — the index list is duplicate
free, the answered count equals the number of distinct answered indices,
and the submission payload never carries two answers for the same index. -/
theorem answers_at_most_one_per_index (qids : Nat → String)
    (ops : List (Nat × String)) (paper : ExamPaper) (t1 t2 : String) :
    (answerIndices (applyOps qids ops)).Nodup
    ∧ (applyOps qids ops).length
        = (answerIndices (applyOps qids ops)).dedup.length
    ∧ ((mkSubmitPayload paper (applyOps qids ops) t1 t2).answers.map
        Prod.fst).Nodup := by
  have hn : (answerIndices (applyOps qids ops)).Nodup :=
    nodup_foldl_answers ops qids [] (by simp [answerIndices])
  refine ⟨hn, ?_, ?_⟩
  · rw [List.dedup_eq_self.mpr hn]
    unfold answerIndices
    rw [List.length_map]
  · have hmap : (mkSubmitPayload paper (applyOps qids ops) t1 t2).answers.map
        Prod.fst = answerIndices (applyOps qids ops) := by
      unfold mkSubmitPayload answerIndices
      rw [List.map_map]
      exact List.map_congr_left (fun a ha => rfl)
    rw [hmap]
    exact hn

/-- C9: the submission success handler destroys all four side-store keys
of the attempt and leaves every key of any other attempt untouched; logout
removes every `exam_`-prefixed key. -/
theorem side_store_cleared_on_success_and_logout (st : Store) (id id2 k : String)
    (h : id2 ≠ id) (hk : strStartsWith k "exam_" = true) :
    getItem (submitOnSuccess st id) (answersKey id) = none
    ∧ getItem (submitOnSuccess st id) (qIndexKey id) = none
    ∧ getItem (submitOnSuccess st id) (timeLeftKey id) = none
    ∧ getItem (submitOnSuccess st id) (startTimeKey id) = none
    ∧ getItem (logout st) k = none
    ∧ getItem (submitOnSuccess st id) (answersKey id2) = getItem st (answersKey id2)
    ∧ getItem (submitOnSuccess st id) (qIndexKey id2) = getItem st (qIndexKey id2)
    ∧ getItem (submitOnSuccess st id) (timeLeftKey id2) = getItem st (timeLeftKey id2)
    ∧ getItem (submitOnSuccess st id) (startTimeKey id2)
        = getItem st (startTimeKey id2) := by
  unfold submitOnSuccess logout
  refine ⟨?_, ?_, ?_, ?_, ?_, ?_, ?_, ?_, ?_⟩
  · rw [getItem_removeItem_ne _ _ _ (key_ne_as id id),
      getItem_removeItem_ne _ _ _ (key_ne_at id id),
      getItem_removeItem_ne _ _ _ (key_ne_aq id id),
      getItem_removeItem_self]
  · rw [getItem_removeItem_ne _ _ _ (key_ne_qs id id),
      getItem_removeItem_ne _ _ _ (key_ne_qt id id),
      getItem_removeItem_self]
  · rw [getItem_removeItem_ne _ _ _ (key_ne_ts id id),
      getItem_removeItem_self]
  · rw [getItem_removeItem_self]
  · exact getItem_filter_not_exam _ k hk
  · rw [getItem_removeItem_ne _ _ _ (key_ne_as id2 id),
      getItem_removeItem_ne _ _ _ (key_ne_at id2 id),
      getItem_removeItem_ne _ _ _ (key_ne_aq id2 id),
      getItem_removeItem_ne _ _ _ (answersKey_inj id2 id h)]
  · rw [getItem_removeItem_ne _ _ _ (key_ne_qs id2 id),
      getItem_removeItem_ne _ _ _ (key_ne_qt id2 id),
      getItem_removeItem_ne _ _ _ (qIndexKey_inj id2 id h),
      getItem_removeItem_ne _ _ _ (Ne.symm (key_ne_aq id id2))]
  · rw [getItem_removeItem_ne _ _ _ (key_ne_ts id2 id),
      getItem_removeItem_ne _ _ _ (timeLeftKey_inj id2 id h),
      getItem_removeItem_ne _ _ _ (Ne.symm (key_ne_qt id id2)),
      getItem_removeItem_ne _ _ _ (Ne.symm (key_ne_at id id2))]
  · rw [getItem_removeItem_ne _ _ _ (startTimeKey_inj id2 id h),
      getItem_removeItem_ne _ _ _ (Ne.symm (key_ne_ts id id2)),
      getItem_removeItem_ne _ _ _ (Ne.symm (key_ne_qs id id2)),
      getItem_removeItem_ne _ _ _ (Ne.symm (key_ne_as id id2))]

/-- C9 witness: the success handler for attempt `a` leaves no answers key
for attempt `a` in an empty store. -/
theorem side_store_cleared_on_success_and_logout_witness :
    getItem (submitOnSuccess [] "a") (answersKey "a") = none :=
  (side_store_cleared_on_success_and_logout [] "a" "b" "exam_x"
    (by decide) (by decide)).1
